import Mathlib

/-!
Shallow embedding of the RedshiftConnector query-building layer
(src/connector/rs_connect.py) and of the state it manipulates.

Pure string-assembly helpers (the clause builders, `_format_insert`,
`_format_update`, `_select`) are translated directly as Lean functions on
strings and association lists (a Python dict is modelled as a
`List (String × V)` in insertion order, which is the iteration order of a
Python dict).  Stateful methods are modelled as functions over explicit
state records or over the outcome of the underlying client call.
-/

namespace RsConnect

/-- Truthiness of an optional Python string: None and the empty string are
falsy, every other string is truthy. -/
def pyStrOptTruthy : Option String → Bool
  | none => false
  | some s => s != ""

/-- Embeds the static method underscore-where: given the optional
(parameterized predicate, bind values) pair it returns " WHERE predicate"
when the pair is present (a 2-tuple always has len greater than 0) and the
empty string when the argument is None. -/
def whereClause {V : Type} : Option (String × List V) → String
  | some (p, _) => " WHERE " ++ p
  | none => ""

/-- Embeds the static method underscore-order: an optional
(column, optional direction) input taken from the order list of the Python
code (an absent or empty list is falsy and maps to none). -/
def orderClause : Option (String × Option String) → String
  | none => ""
  | some (c, none) => " ORDER BY " ++ c
  | some (c, some d) => " ORDER BY " ++ c ++ " " ++ d

/-- Embeds the static method underscore-limit: `if limit:` makes both None
and 0 produce the empty string; a nonzero n produces " LIMIT n". -/
def limitClause : Option Nat → String
  | none => ""
  | some n => if n = 0 then "" else " LIMIT " ++ toString n

/-- Embeds the static method underscore-offset, symmetric to the limit
clause. -/
def offsetClause : Option Nat → String
  | none => ""
  | some n => if n = 0 then "" else " OFFSET " ++ toString n

/-- Embeds the static method underscore-returning: None and the empty
string are falsy and give the empty clause. -/
def returningClause : Option String → String
  | none => ""
  | some r => if r = "" then "" else " RETURNING " ++ r

/-- Embeds the method `_select`: the base SELECT clause followed by the
WHERE, ORDER BY, LIMIT and OFFSET fragments in that fixed order. -/
def selectSql {V : Type} (table cols : String) (w : Option (String × List V))
    (o : Option (String × Option String)) (l off : Option Nat) : String :=
  "SELECT " ++ cols ++ " FROM " ++ table
    ++ whereClause w ++ orderClause o ++ limitClause l ++ offsetClause off

/-- SQL string built by `retrieve` once the column string is fixed: the
method calls `_select(table, columns, where, order, limit)` positionally,
so the limit argument reaches the LIMIT clause and no offset is passed. -/
def retrieveSql {V : Type} (table columns : String) (w : Option (String × List V))
    (o : Option (String × Option String)) (l : Option Nat) : String :=
  selectSql table columns w o l none

/-- Rows handed back by fetchall for the statement `retrieve` builds.
The unlimited result of the query (every matching row, already ordered) is
the parameter; because `_select` emits a LIMIT clause exactly when the
limit is truthy, the database truncates the result from the head and
returns its first n rows in that case (standard SQL LIMIT semantics). -/
def fetchRows {α : Type} (fullRows : List α) (limit : Option Nat) : List α :=
  match limit with
  | none => fullRows
  | some n => if n = 0 then fullRows else fullRows.take n

/-- Python list slice rows[k:] for an integer k: a negative start counts
from the end of the list and clamps at 0. -/
def pySliceFrom {α : Type} (rows : List α) (k : Int) : List α :=
  if k < 0 then rows.drop ((rows.length + k).toNat) else rows.drop k.toNat

/-- Embeds the tail of `retrieve`: rows = fetchall of the built statement,
then the slice rows[len(rows) - limit if limit else 0:]. -/
def retrieveRows {α : Type} (fullRows : List α) (limit : Option Nat) : List α :=
  let rows := fetchRows fullRows limit
  let start : Int :=
    match limit with
    | some n => if n = 0 then 0 else (rows.length : Int) - (n : Int)
    | none => 0
  pySliceFrom rows start

/-- Embeds the static method `_format_update`: joins the keys of the data
mapping with placeholder assignments, giving k1=%s,k2=%s,...,kn=%s. -/
def formatUpdate {V : Type} (data : List (String × V)) : String :=
  String.intercalate "=%s," (data.map Prod.fst) ++ "=%s"

/-- Embeds the bind-sequence argument of `update`: the data values followed
by the where values when the where pair is supplied (a 2-tuple always has
len greater than 1), otherwise the data values alone. -/
def updateBinds {V : Type} (data : List (String × V))
    (w : Option (String × List V)) : List V :=
  match w with
  | some (_, vs) => data.map Prod.snd ++ vs
  | none => data.map Prod.snd

/-- Statement string built by `update`: UPDATE table SET assignments, then
the WHERE and RETURNING fragments. -/
def updateSql {V : Type} (table : String) (data : List (String × V))
    (w : Option (String × List V)) (r : Option String) : String :=
  "UPDATE " ++ table ++ " SET " ++ formatUpdate data
    ++ whereClause w ++ returningClause r

/-- Embeds the static method `_format_insert`: the comma-joined key list of
the data mapping and the comma-joined list of one %s placeholder per
entry. -/
def formatInsert {V : Type} (data : List (String × V)) : String × String :=
  (String.intercalate "," (data.map Prod.fst),
   String.intercalate "," (data.map (fun _ => "%s")))

/-- Statement string built by `insert`. -/
def insertSql {V : Type} (table : String) (data : List (String × V))
    (r : Option String) : String :=
  "INSERT INTO " ++ table ++ " (" ++ (formatInsert data).1 ++ ") VALUES("
    ++ (formatInsert data).2 ++ ")" ++ returningClause r

/-- Cursor state observed by `insert` after execution: the row fetchone
would return and the affected-row count. -/
structure Cursor (V : Type) where
  fetchoneRow : Option (List V)
  rowcount : Int
  deriving DecidableEq

/-- Value returned by `insert`: either a fetched RETURNING row or the
affected-row count. -/
inductive InsertResult (V : Type) where
  | row (r : Option (List V))
  | count (n : Int)
  deriving DecidableEq

/-- Embeds the return expression of `insert`:
cursor.fetchone() if returning else cursor.rowcount. -/
def insertResult {V : Type} (returning : Option String) (cur : Cursor V) :
    InsertResult V :=
  if pyStrOptTruthy returning then .row cur.fetchoneRow else .count cur.rowcount

/-- Outcome of the single get_secret_value call made by get_credentials:
either the client raised a ClientError carrying an error code, or a
response arrived carrying an optional SecretString payload. -/
inductive SecretFetch where
  | clientError (code : String)
  | response (secretString : Option String)
  deriving DecidableEq

/-- The five ClientError codes the except branch of get_credentials
recognises and prints a message for. -/
def recognizedErrorCodes : List String :=
  ["ResourceNotFoundException", "InvalidRequestException",
   "InvalidParameterException", "DecryptionFailure", "InternalServiceError"]

/-- Diagnostics printed by the except branch of get_credentials: one
message for each of the five recognised error codes (the message heads of
the source; the appended exception text is elided) and nothing for any
other code. -/
def clientErrorPrints (secretId code : String) : List String :=
  if code = "ResourceNotFoundException" then
    ["The requested secret " ++ secretId ++ " was not found"]
  else if code = "InvalidRequestException" then
    ["The request was invalid due to:"]
  else if code = "InvalidParameterException" then
    ["The request had invalid params:"]
  else if code = "DecryptionFailure" then
    ["The requested secret cannot be decrypted using the provided KMS key:"]
  else if code = "InternalServiceError" then
    ["An error occurred on service side:"]
  else []

/-- Result of get_credentials: the parsed credential payload when the
assert passes, or the AssertionError raised when cred is still None. -/
inductive CredResolution where
  | ok (cred : String)
  | assertionError
  deriving DecidableEq

/-- Embeds get_credentials as a function of the fetch outcome, returning
the printed diagnostics together with the resolution: cred starts as None,
a ClientError leaves it None after the prints, a response without a
SecretString key leaves it None silently, and a present SecretString is
parsed (the json payload is modelled as the string itself); the final
assert turns a None cred into an AssertionError. -/
def getCredentials (secretId : String) : SecretFetch → List String × CredResolution
  | .clientError code => (clientErrorPrints secretId code, .assertionError)
  | .response none => ([], .assertionError)
  | .response (some s) => ([], .ok s)

/-- Credential mapping the body of get_credentials produced before the
assert: none exactly when cred is still None at the assert. -/
def producedCred : SecretFetch → Option String
  | .clientError _ => none
  | .response none => none
  | .response (some s) => some s

/-- Credential record resolved at construction. -/
structure Creds where
  host : String
  port : Nat
  username : String
  password : String
  deriving DecidableEq

/-- Observable state of one psycopg2 connection: the database it was
opened against, the credentials used to open it, whether close was called
on it, and how many commits were issued on it. -/
structure Conn where
  db : String
  creds : Creds
  closed : Bool
  commits : Nat
  deriving DecidableEq

/-- Embeds `_init_conn`: a fresh open connection to db with the given
credentials. -/
def initConn (db : String) (creds : Creds) : Conn :=
  { db := db, creds := creds, closed := false, commits := 0 }

/-- Embeds conn.commit(): one more commit on the connection. -/
def commitConn (c : Conn) : Conn := { c with commits := c.commits + 1 }

/-- Observable state of a RedshiftConnector: the credentials resolved at
construction, the current connection self.conn, and every earlier
connection object that self.conn stopped referencing (kept so that its
closed flag remains observable). -/
structure Connector where
  credentials : Creds
  conn : Conn
  prevConns : List Conn
  deriving DecidableEq

/-- Connector state right after construction with a direct credential
mapping: self.conn is a fresh connection opened with those credentials. -/
def initConnector (db : String) (creds : Creds) : Connector :=
  { credentials := creds, conn := initConn db creds, prevConns := [] }

/-- Embeds close(): commits the connection and closes it (the cursor close
is part of the same step). -/
def closeConnector (s : Connector) : Connector :=
  { s with conn := { commitConn s.conn with closed := true } }

/-- Embeds switch_database(db_name): since self.conn is truthy,
connection_properties is set to self.credentials and the current
connection is committed; then self.conn is reassigned to a fresh
connection opened with those properties.  The prior connection object is
dropped without close being called on it, so it moves to prevConns with
its closed flag untouched. -/
def switchDatabase (dbName : String) (s : Connector) : Connector :=
  { s with conn := initConn dbName s.credentials,
           prevConns := commitConn s.conn :: s.prevConns }

/-- Concrete credential record used by counterexamples. -/
def exampleCreds : Creds :=
  { host := "h", port := 5439, username := "u", password := "p" }

/-- Row shape handed to the caller of execute: either a positional tuple
or a column-name-to-value mapping (a RealDictRow). -/
inductive PyRow (V : Type) where
  | tup (cells : List V)
  | map (fields : List (String × V))
  deriving DecidableEq

/-- Fetchall through a RealDictCursor: every row of the underlying result
(a list of column-name and value pairs in column order) comes back as a
mapping. -/
def dictCursorFetchAll {V : Type} (tbl : List (List (String × V))) : List (PyRow V) :=
  tbl.map PyRow.map

/-- Fetchall through a plain cursor: every row comes back as a positional
tuple of the values. -/
def plainCursorFetchAll {V : Type} (tbl : List (List (String × V))) : List (PyRow V) :=
  tbl.map (fun r => PyRow.tup (r.map Prod.snd))

/-- Embeds the cursor-selection condition of execute, which the source
writes as the disjunction of return_type == d and the literal string dict;
a nonempty string literal is truthy. -/
def executeCursorIsDict (returnType : Option String) : Bool :=
  (returnType == some "d") || ("dict" != "")

/-- Applying dict to a row: a RealDictRow yields the same mapping; a
positional tuple of scalar values would raise, modelled as none. -/
def pyDict {V : Type} : PyRow V → Option (PyRow V)
  | .map fields => some (.map fields)
  | .tup _ => none

/-- The comprehension applying dict to every fetched row, failing at the
first row dict would raise on. -/
def dictComprehension {V : Type} : List (PyRow V) → Option (List (PyRow V))
  | [] => some []
  | r :: rs =>
    match pyDict r with
    | none => none
    | some d =>
      match dictComprehension rs with
      | none => none
      | some ds => some (d :: ds)

/-- Embeds the record-producing part of execute: pick the cursor by the
selection condition, fetch all rows through it, and return them as they
are when return_type is falsy, else pass each through dict. -/
def executeRows {V : Type} (returnType : Option String)
    (tbl : List (List (String × V))) : Option (List (PyRow V)) :=
  let fetched :=
    if executeCursorIsDict returnType then dictCursorFetchAll tbl
    else plainCursorFetchAll tbl
  if pyStrOptTruthy returnType then dictComprehension fetched else some fetched

/-- Embeds the module constant DTYPES as a lookup from the parquet type
tag to the Redshift column type; a tag outside the table has no entry. -/
def DTYPES : String → Option String
  | "string" => some "VARCHAR(256)"
  | "int" => some "INTEGER"
  | "integer" => some "INTEGER"
  | "double" => some "NUMERIC(18,0)"
  | _ => none

/-- Embeds the module constant RESERVED_KEYWORDS. -/
def RESERVED_KEYWORDS : List String := ["year"]

/-- Fragment appended to table_schema for one field once its type is
resolved: the column name is double-quoted exactly when it is a reserved
keyword. -/
def colFragment (column dtype : String) : String :=
  if column ∈ RESERVED_KEYWORDS then "\"" ++ column ++ "\" " ++ dtype ++ ","
  else column ++ " " ++ dtype ++ ","

/-- Embeds the schema-building loop of create_table over the (column name,
type tag) pairs of df.dtypes: the DTYPES lookup of the first unknown tag
raises a KeyError carrying that tag, otherwise the fragments are
concatenated left to right. -/
def buildTableSchema : List (String × String) → Except String String
  | [] => .ok ""
  | (column, tag) :: rest =>
    match DTYPES tag with
    | none => .error tag
    | some dtype =>
      match buildTableSchema rest with
      | .error e => .error e
      | .ok s => .ok (colFragment column dtype ++ s)

/-- Python rstrip with a comma argument: removes every trailing comma. -/
def rstripCommas (s : String) : String :=
  ⟨(s.data.reverse.dropWhile (fun c => c = ',')).reverse⟩

/-- The table_schema string of create_table after the loop and the final
rstrip. -/
def createTableSchema (fields : List (String × String)) : Except String String :=
  (buildTableSchema fields).map rstripCommas

/-- Embeds the method underscore-execute over the outcome of the
underlying cursor.execute call: the try block prints a diagnostic and
re-raises on any exception, and returns the cursor unchanged on
success. -/
def rsExecuteWrapped {α : Type} (r : Except String α) : List String × Except String α :=
  match r with
  | .ok cur => ([], .ok cur)
  | .error e => (["execute() failed due to: " ++ e], .error e)

/-- Embeds the execution step of retrieve_dict, whose cursor.execute call
is not wrapped in a try block: nothing is printed and any exception
propagates unchanged. -/
def retrieveDictExecute {α : Type} (r : Except String α) : List String × Except String α :=
  match r with
  | .ok cur => ([], .ok cur)
  | .error e => ([], .error e)

/-- Helper: the dict comprehension of execute is the identity on a fetchall
result made only of mappings. -/
theorem dictComprehension_on_maps (V : Type) (tbl : List (List (String × V))) :
    dictComprehension (tbl.map PyRow.map) = some (tbl.map PyRow.map) := by
  induction tbl with
  | nil => rfl
  | cons r rs ih => simp [dictComprehension, pyDict, ih]

/-- Helper: the except branch of get_credentials prints something exactly
when the error code is one of the five recognised ones. -/
theorem clientErrorPrints_ne_nil (secretId code : String) :
    clientErrorPrints secretId code ≠ [] ↔ code ∈ recognizedErrorCodes := by
  unfold clientErrorPrints recognizedErrorCodes
  split_ifs with h1 h2 h3 h4 h5 <;> simp_all

/-- Helper: the schema-building loop of create_table fails exactly when
some field carries a type tag outside the DTYPES table. -/
theorem buildTableSchema_error_iff (fields : List (String × String)) :
    (∃ e, buildTableSchema fields = Except.error e)
      ↔ ∃ p ∈ fields, DTYPES p.2 = none := by
  induction fields with
  | nil => simp [buildTableSchema]
  | cons f rest ih =>
    obtain ⟨column, tag⟩ := f
    cases htag : DTYPES tag with
    | none =>
      constructor
      · intro _
        exact ⟨(column, tag), List.mem_cons_self _ _, htag⟩
      · intro _
        exact ⟨tag, by simp [buildTableSchema, htag]⟩
    | some dtype =>
      cases hres : buildTableSchema rest with
      | error e =>
        have hstep : buildTableSchema ((column, tag) :: rest) = Except.error e := by
          simp [buildTableSchema, htag, hres]
        constructor
        · intro _
          obtain ⟨p, hp, hnone⟩ := ih.mp ⟨e, hres⟩
          exact ⟨p, List.mem_cons_of_mem _ hp, hnone⟩
        · intro _
          exact ⟨e, hstep⟩
      | ok s =>
        have hstep : buildTableSchema ((column, tag) :: rest)
            = Except.ok (colFragment column dtype ++ s) := by
          simp [buildTableSchema, htag, hres]
        constructor
        · rintro ⟨e2, he2⟩
          rw [hstep] at he2
          exact absurd he2 (by simp)
        · rintro ⟨p, hp, hnone⟩
          rcases List.mem_cons.mp hp with heq | hmem
          · rw [heq] at hnone
            rw [hnone] at htag
            exact absurd htag (by simp)
          · obtain ⟨e, he⟩ := ih.mpr ⟨p, hmem, hnone⟩
            rw [he] at hres
            exact absurd hres (by simp)

/-- C8: for every combination of optional where, order, limit and offset
inputs, the select builder emits the base SELECT clause followed left to
right by the WHERE, ORDER BY, LIMIT and OFFSET fragments in that fixed
order, each fragment having its documented shape when its input is present
(a nonzero value for the integer clauses, see the limit-zero theorem) and
being the empty string when absent. -/
theorem select_composes_in_fixed_order :
    (∀ (table cols : String) (w : Option (String × List String))
        (o : Option (String × Option String)) (l off : Option Nat),
        selectSql table cols w o l off
          = "SELECT " ++ cols ++ " FROM " ++ table ++ whereClause w
              ++ orderClause o ++ limitClause l ++ offsetClause off)
  ∧ whereClause (V := String) none = ""
  ∧ (∀ (p : String) (vs : List String), whereClause (some (p, vs)) = " WHERE " ++ p)
  ∧ orderClause none = ""
  ∧ (∀ c : String, orderClause (some (c, none)) = " ORDER BY " ++ c)
  ∧ (∀ c d : String, orderClause (some (c, some d)) = " ORDER BY " ++ c ++ " " ++ d)
  ∧ limitClause none = ""
  ∧ (∀ n : Nat, limitClause (some (n + 1)) = " LIMIT " ++ toString (n + 1))
  ∧ offsetClause none = ""
  ∧ (∀ n : Nat, offsetClause (some (n + 1)) = " OFFSET " ++ toString (n + 1)) := by
  refine ⟨fun _ _ _ _ _ _ => rfl, rfl, fun _ _ => rfl, rfl, fun _ => rfl,
    fun _ _ => rfl, rfl, fun n => ?_, rfl, fun n => ?_⟩ <;>
    simp [limitClause, offsetClause]

/-- C10: a limit of 0 or an offset of 0 is treated as absent: the LIMIT
and OFFSET clause builders return the empty string for 0, and retrieve
called with limit 0 returns every fetched row rather than an empty
sequence. -/
theorem limit_zero_is_absent :
    limitClause (some 0) = ""
  ∧ offsetClause (some 0) = ""
  ∧ ∀ (α : Type) (rows : List α), retrieveRows rows (some 0) = rows := by
  refine ⟨rfl, rfl, fun α rows => ?_⟩
  simp [retrieveRows, fetchRows, pySliceFrom]

/-- C1 counterexample: with unlimited result 1, 2, 3 and limit 2, retrieve
returns the first two rows 1, 2 and not the last two rows 2, 3, because
the statement it builds already carries the LIMIT clause, so the fetch is
truncated from the head and the in-memory tail slice is a no-op. -/
theorem retrieve_limit_head_counterexample :
    retrieveRows [1, 2, 3] (some 2) = [1, 2]
  ∧ retrieveRows [1, 2, 3] (some 2) ≠ List.drop 1 [1, 2, 3]
  ∧ retrieveSql "t" "*" (none : Option (String × List String)) none (some 2)
      = "SELECT * FROM t LIMIT 2" := by
  refine ⟨?_, ?_, ?_⟩ <;> decide

/-- C1 amended: for a limit n with 0 < n and an unlimited result of at
least n rows, retrieve returns exactly the first n rows of the unlimited
result: the limit is passed into the generated SQL, the database truncates
from the head, and the tail slice then starts at index 0. -/
theorem retrieve_limit_returns_head (α : Type) (fullRows : List α) (n : Nat)
    (hpos : 0 < n) (hlen : n ≤ fullRows.length) :
    retrieveRows fullRows (some n) = fullRows.take n := by
  have hne : n ≠ 0 := Nat.pos_iff_ne_zero.mp hpos
  simp [retrieveRows, fetchRows, pySliceFrom, hne, List.length_take,
    Nat.min_eq_left hlen]

/-- Witness for the amended C1 theorem at a concrete input. -/
theorem retrieve_limit_returns_head_witness :
    retrieveRows [10, 20, 30] (some 2) = List.take 2 [10, 20, 30] :=
  retrieve_limit_returns_head Nat [10, 20, 30] 2 (by decide) (by decide)

/-- C2: the positional bind sequence passed by update to execution is the
data values followed by the where values when a where pair is supplied,
and the data values alone otherwise; the composed statement places the SET
assignments before the WHERE fragment, so the SET placeholders come
first. -/
theorem update_bind_sequence (table : String) (data : List (String × String))
    (p : String) (vs : List String) (w : Option (String × List String))
    (r : Option String) :
    updateBinds data (some (p, vs)) = data.map Prod.snd ++ vs
  ∧ updateBinds data none = data.map Prod.snd
  ∧ (updateBinds data (some (p, vs))).length = data.length + vs.length
  ∧ updateSql table data w r
      = "UPDATE " ++ table ++ " SET " ++ formatUpdate data
          ++ whereClause w ++ returningClause r :=
  ⟨rfl, rfl, by simp [updateBinds], rfl⟩

/-- C3: for every data mapping the emitted column list and the emitted
placeholder list have the same length, both the number of keys, with the
columns in the iteration order of the mapping; insert returns the fetched
RETURNING row when returning is truthy and the affected-row count
otherwise. -/
theorem insert_columns_match_placeholders (V : Type) :
    (∀ data : List (String × V),
        data.map (fun _ => "%s") = List.replicate data.length "%s")
  ∧ (∀ data : List (String × V), (data.map Prod.fst).length = data.length)
  ∧ (∀ data : List (String × V),
        formatInsert data
          = (String.intercalate "," (data.map Prod.fst),
             String.intercalate "," (List.replicate data.length "%s")))
  ∧ (∀ cur : Cursor V, insertResult none cur = InsertResult.count cur.rowcount)
  ∧ (∀ (cur : Cursor V) (s : String), s ≠ "" →
        insertResult (some s) cur = InsertResult.row cur.fetchoneRow) := by
  have hmap : ∀ data : List (String × V),
      data.map (fun _ => "%s") = List.replicate data.length "%s" := by
    intro data
    induction data with
    | nil => rfl
    | cons d ds ih => simp [ih, List.replicate_succ]
  refine ⟨hmap, fun data => by simp, fun data => ?_, fun cur => rfl, fun cur s hs => ?_⟩
  · simp [formatInsert, hmap]
  · simp [insertResult, pyStrOptTruthy, hs]

/-- Witness for the C3 theorem at a concrete input. -/
theorem insert_columns_match_placeholders_witness :
    insertResult (some "asset_id") (⟨some ["7"], 1⟩ : Cursor String)
      = InsertResult.row (some ["7"]) :=
  (insert_columns_match_placeholders String).2.2.2.2 ⟨some ["7"], 1⟩ "asset_id"
    (by decide)

/-- C4 counterexample: a successful secret-store response that carries no
SecretString produces no credential, yet get_credentials prints no
diagnostic at all before failing the assertion, contradicting the claim
that a diagnostic is always emitted. -/
theorem get_credentials_silent_counterexample :
    (getCredentials "my-secret" (SecretFetch.response none)).1 = []
  ∧ (getCredentials "my-secret" (SecretFetch.response none)).2
      = CredResolution.assertionError :=
  ⟨rfl, rfl⟩

/-- C4 amended: whenever credential resolution produces no credential
mapping, get_credentials fails with an assertion failure and never returns
an unset credential; a diagnostic is emitted exactly when the failure is a
client error with one of the five recognised codes, and never for a
response lacking a secret string or an unrecognised error code. -/
theorem get_credentials_assertion_amended (secretId : String) (f : SecretFetch) :
    ((getCredentials secretId f).2 = CredResolution.assertionError
        ↔ producedCred f = none)
  ∧ (∀ c, producedCred f = some c
        → getCredentials secretId f = ([], CredResolution.ok c))
  ∧ ((getCredentials secretId f).1 ≠ []
        ↔ ∃ code, f = SecretFetch.clientError code ∧ code ∈ recognizedErrorCodes) := by
  cases f with
  | clientError code =>
    refine ⟨by simp [getCredentials, producedCred], ?_, ?_⟩
    · intro c h
      simp [producedCred] at h
    · simp only [getCredentials]
      rw [clientErrorPrints_ne_nil]
      constructor
      · intro h
        exact ⟨code, rfl, h⟩
      · rintro ⟨code2, heq, hmem⟩
        cases heq
        exact hmem
  | response secretString =>
    cases secretString with
    | none =>
      refine ⟨by simp [getCredentials, producedCred], ?_, by simp [getCredentials]⟩
      intro c h
      simp [producedCred] at h
    | some s =>
      refine ⟨by simp [getCredentials, producedCred], ?_, by simp [getCredentials]⟩
      intro c h
      simp only [producedCred, Option.some.injEq] at h
      rw [← h]
      rfl

/-- Witness for the amended C4 theorem at a concrete input. -/
theorem get_credentials_assertion_amended_witness :
    getCredentials "db-secret" (SecretFetch.response (some "cred-json"))
      = ([], CredResolution.ok "cred-json") :=
  (get_credentials_assertion_amended "db-secret"
    (SecretFetch.response (some "cred-json"))).2.1 "cred-json" rfl

/-- C5 counterexample: after switch_database on a freshly constructed
connector, the prior connection object has its closed flag still false: it
was committed but never closed, contradicting the claim that the prior
session is closed. -/
theorem switch_database_leaves_prior_open :
    ((switchDatabase "db1" (initConnector "db0" exampleCreds)).prevConns.head?).map
        Conn.closed = some false
  ∧ ((switchDatabase "db1" (initConnector "db0" exampleCreds)).prevConns.head?).map
        Conn.closed ≠ some true := by
  refine ⟨rfl, by decide⟩

/-- C5 amended: switch_database commits the pending work of the prior
session but does not close it (its closed flag is unchanged), and the new
connection is opened with the stored credentials, which the switch leaves
unchanged; close, by contrast, does set the closed flag. -/
theorem switch_database_amended (dbName : String) (s : Connector) :
    (switchDatabase dbName s).credentials = s.credentials
  ∧ (switchDatabase dbName s).conn = initConn dbName s.credentials
  ∧ (switchDatabase dbName s).prevConns = commitConn s.conn :: s.prevConns
  ∧ (commitConn s.conn).commits = s.conn.commits + 1
  ∧ (commitConn s.conn).closed = s.conn.closed
  ∧ (closeConnector s).conn.closed = true :=
  ⟨rfl, rfl, rfl, rfl, rfl, rfl⟩

/-- C6: the cursor-selection condition of execute is true for every
return_type value including None, so the plain-cursor branch is
unreachable, and execute returns every row as a column-name mapping, in
particular with return_type None. -/
theorem execute_always_dict_mode (V : Type) (rt : Option String)
    (tbl : List (List (String × V))) :
    executeCursorIsDict rt = true
  ∧ executeRows (V := V) none tbl = some (tbl.map PyRow.map)
  ∧ executeRows rt tbl = some (tbl.map PyRow.map) := by
  have hd : executeCursorIsDict rt = true := by
    simp [executeCursorIsDict]
  refine ⟨hd, ?_, ?_⟩
  · simp [executeRows, executeCursorIsDict, pyStrOptTruthy, dictCursorFetchAll]
  · cases htr : pyStrOptTruthy rt with
    | false => simp [executeRows, hd, htr, dictCursorFetchAll]
    | true => simp [executeRows, hd, htr, dictCursorFetchAll, dictComprehension_on_maps]

/-- C7: create_table double-quotes exactly the reserved column names, maps
the type tags through the fixed DTYPES table, whose domain is exactly
string, int, integer and double, and fails with a lookup error exactly
when some field carries a tag outside that table. -/
theorem create_table_quoting_and_dtypes (column dtype tag : String)
    (fields : List (String × String)) :
    (column ∈ RESERVED_KEYWORDS
        → colFragment column dtype = "\"" ++ column ++ "\" " ++ dtype ++ ",")
  ∧ (column ∉ RESERVED_KEYWORDS
        → colFragment column dtype = column ++ " " ++ dtype ++ ",")
  ∧ DTYPES "string" = some "VARCHAR(256)"
  ∧ DTYPES "int" = some "INTEGER"
  ∧ DTYPES "integer" = some "INTEGER"
  ∧ DTYPES "double" = some "NUMERIC(18,0)"
  ∧ ((DTYPES tag).isSome ↔ tag ∈ ["string", "int", "integer", "double"])
  ∧ ((∃ e, buildTableSchema fields = Except.error e)
        ↔ ∃ p ∈ fields, DTYPES p.2 = none) := by
  refine ⟨fun h => by simp [colFragment, h], fun h => by simp [colFragment, h],
    rfl, rfl, rfl, rfl, ?_, buildTableSchema_error_iff fields⟩
  unfold DTYPES
  split <;> simp_all

/-- Witness for the C7 theorem at concrete inputs discharging both
membership hypotheses. -/
theorem create_table_quoting_and_dtypes_witness :
    colFragment "year" "INTEGER" = "\"" ++ "year" ++ "\" " ++ "INTEGER" ++ ","
  ∧ colFragment "name" "VARCHAR(256)" = "name" ++ " " ++ "VARCHAR(256)" ++ "," :=
  ⟨(create_table_quoting_and_dtypes "year" "INTEGER" "int" []).1 (by decide),
   (create_table_quoting_and_dtypes "name" "VARCHAR(256)" "int" []).2.1 (by decide)⟩

/-- C9 counterexample: the execution step of retrieve_dict, one of the
execution paths named by the claim, prints no diagnostic when the
underlying client fails, even though the wrapped underscore-execute path
does; the error itself still propagates unchanged. -/
theorem retrieve_dict_unlogged_counterexample :
    (retrieveDictExecute (α := Unit) (Except.error "connection lost")).1 = []
  ∧ (retrieveDictExecute (α := Unit) (Except.error "connection lost")).2
      = Except.error "connection lost"
  ∧ (rsExecuteWrapped (α := Unit) (Except.error "connection lost")).1
      = ["execute() failed due to: connection lost"] :=
  ⟨rfl, rfl, rfl⟩

/-- C9 amended: on every execution path any error from the underlying
client is re-raised unchanged, with no retry, no classification and no
partial-result salvage; the paths going through underscore-execute log one
diagnostic first, but the bare cursor.execute call of retrieve_dict logs
nothing. -/
theorem execution_error_propagation_amended (α : Type) (r : Except String α)
    (e : String) :
    (rsExecuteWrapped r).2 = r
  ∧ (retrieveDictExecute r).2 = r
  ∧ (rsExecuteWrapped (α := α) (Except.error e)).1
      = ["execute() failed due to: " ++ e]
  ∧ (retrieveDictExecute (α := α) (Except.error e)).1 = [] := by
  refine ⟨?_, ?_, rfl, rfl⟩ <;> cases r <;> rfl

end RsConnect
